import Mathlib

/-!
Shallow embedding of the `sui-http` middleware core:
the gRPC deadline middleware (`src/middleware/grpc_timeout.rs`) and the
callback-instrumentation middleware (`src/middleware/callback/future.rs`),
together with theorems checking the natural-language specification against it.

Machine integers are modelled by `Nat` with explicit `% 2 ^ 64` where the Rust
code performs `u64` arithmetic.  `Duration` is modelled as a nanosecond count.
Futures are modelled by pure per-poll step functions: the sub-futures' poll
outcomes at a given poll are inputs of the step function, and an execution is a
list of such inputs.
-/

set_option autoImplicit false

namespace SuiHttp

/-- `std::task::Poll`. -/
inductive Poll (α : Type) : Type where
  | ready (value : α)
  | pending
deriving DecidableEq, Repr

namespace Poll

def isReady {α : Type} : Poll α → Bool
  | .ready _ => true
  | .pending => false

end Poll

/-- `std::time::Duration`, modelled as a nanosecond count.  `Duration` holds
64-bit seconds and sub-second nanoseconds, so every value reachable in this
code base embeds exactly. -/
abbrev Duration := Nat

def NANOS_PER_SEC : Nat := 1000000000

def Duration.from_secs (s : Nat) : Duration := s * NANOS_PER_SEC

def Duration.from_millis (ms : Nat) : Duration := ms * 1000000

def Duration.from_micros (us : Nat) : Duration := us * 1000

def Duration.from_nanos (ns : Nat) : Duration := ns

/-- `u64` multiplication (`a * b` in Rust on `u64` operands). -/
def u64_mul (a b : Nat) : Nat := (a * b) % 2 ^ 64

/-- `http::HeaderValue`: a sequence of bytes. -/
abbrev HeaderValue := List Nat

/-- `http::HeaderMap<HeaderValue>` restricted to what the code uses:
an association of lowercase header names to values. -/
abbrev HeaderMap := List (String × HeaderValue)

/-- `HeaderMap::get`: the first value stored under `name`, if any. -/
def HeaderMap.get (headers : HeaderMap) (name : String) : Option HeaderValue :=
  (headers.find? (fun p => p.1 == name)).map (fun p => p.2)

/-- The byte predicate of `http::HeaderValue::to_str`: conversion to `&str`
succeeds iff every byte is visible ASCII (or a tab). -/
def is_visible_ascii (b : Nat) : Bool :=
  (32 ≤ b && b < 127) || b == 9

def is_ascii_digit (b : Nat) : Bool :=
  48 ≤ b && b ≤ 57

/-- The numeric value of a big-endian list of ASCII digit bytes. -/
def digitsVal (s : List Nat) : Nat :=
  s.foldl (fun acc b => acc * 10 + (b - 48)) 0

/-- Rust's `str::parse::<u64>` (`u64::from_str`): an optional leading `+`
followed by one or more ASCII digits; fails on anything else and on values
that do not fit in 64 bits. -/
def parse_u64 (s : List Nat) : Option Nat :=
  let digits := if s.headD 0 == 43 then s.tail else s
  if digits.isEmpty then none
  else if digits.all is_ascii_digit then
    let n := digitsVal digits
    if n < 2 ^ 64 then some n else none
  else none

/-- The string shape accepted by Rust's `u64::from_str`: an optional leading
`+` followed by one or more ASCII digits (ignoring the range check). -/
def rust_u64_grammar (s : List Nat) : Bool :=
  let digits := if s.headD 0 == 43 then s.tail else s
  !digits.isEmpty && digits.all is_ascii_digit

def is_timeout_unit (b : Nat) : Bool :=
  b == 72 || b == 77 || b == 83 || b == 109 || b == 117 || b == 110

/-- The spec's grammar for the `grpc-timeout` value, `^[0-9]{1,8}[HMSmun]$`:
1 to 8 ASCII digits followed by one unit byte. -/
def matches_timeout_grammar (v : List Nat) : Bool :=
  2 ≤ v.length && v.length ≤ 9 &&
  (v.take (v.length - 1)).all is_ascii_digit &&
  (v.drop (v.length - 1)).all is_timeout_unit

/-- The set of values the parser actually accepts: the numeric part may also
carry a leading `+` (Rust's `u64` parser accepts it) and is bounded at 8
bytes, followed by one unit byte. -/
def accepted_timeout_grammar (v : List Nat) : Bool :=
  2 ≤ v.length && v.length - 1 ≤ 8 &&
  rust_u64_grammar (v.take (v.length - 1)) &&
  (v.drop (v.length - 1)).all is_timeout_unit

def GRPC_TIMEOUT_HEADER : String := "grpc-timeout"
def GRPC_STATUS_HEADER : String := "grpc-status"
def GRPC_MESSAGE_HEADER : String := "grpc-message"
def CONTENT_TYPE_HEADER : String := "content-type"

def GRPC_CONTENT_TYPE : String := "application/grpc"
def GRPC_DEADLINE_EXCEEDED_CODE : String := "4"
def GRPC_DEADLINE_EXCEEDED_MESSAGE : String := "Timeout%20expired"

def SECONDS_IN_HOUR : Nat := 60 * 60
def SECONDS_IN_MINUTE : Nat := 60

/-- `try_parse_grpc_timeout` from `grpc_timeout.rs`.  On a present value it
checks `HeaderValue::to_str` (visible ASCII), non-emptiness, splits off the
final byte as the unit, bounds the numeric part at 8 bytes, parses it with
Rust's `u64` parser and scales by the unit; every rejection returns the
original value. -/
def try_parse_grpc_timeout (headers : HeaderMap) :
    Except HeaderValue (Option Duration) :=
  match HeaderMap.get headers GRPC_TIMEOUT_HEADER with
  | none => Except.ok none
  | some val =>
    if val.all is_visible_ascii then
      if val.isEmpty then Except.error val
      else
        let timeout_value := val.take (val.length - 1)
        let timeout_unit := val.drop (val.length - 1)
        if timeout_value.length > 8 then Except.error val
        else
          match parse_u64 timeout_value with
          | none => Except.error val
          | some tv =>
            if timeout_unit == [72] then
              Except.ok (some (Duration.from_secs (u64_mul tv SECONDS_IN_HOUR)))
            else if timeout_unit == [77] then
              Except.ok (some (Duration.from_secs (u64_mul tv SECONDS_IN_MINUTE)))
            else if timeout_unit == [83] then
              Except.ok (some (Duration.from_secs tv))
            else if timeout_unit == [109] then
              Except.ok (some (Duration.from_millis tv))
            else if timeout_unit == [117] then
              Except.ok (some (Duration.from_micros tv))
            else if timeout_unit == [110] then
              Except.ok (some (Duration.from_nanos tv))
            else Except.error val
    else Except.error val

/-- The reconciliation `match` in `GrpcTimeout::call`: pick the shorter of the
client-declared and the server-configured timeout when both are set, else
whichever is set. -/
def timeout_duration (client_timeout server_timeout : Option Duration) :
    Option Duration :=
  match client_timeout, server_timeout with
  | none, none => none
  | some dur, none => some dur
  | none, some dur => some dur
  | some header, some server => some (min header server)

/-- The `unwrap_or_else` in `GrpcTimeout::call`: a malformed header degrades to
"no client timeout" (the error is only logged). -/
def unwrap_or_none (r : Except HeaderValue (Option Duration)) : Option Duration :=
  match r with
  | Except.ok v => v
  | Except.error _ => none

/-- `GrpcTimeout::call`, projected to the datum that decides the race: the
duration the `sleep` timer is armed with (`none` = no timer is created). -/
def GrpcTimeout.call_sleep (server_timeout : Option Duration)
    (headers : HeaderMap) : Option Duration :=
  timeout_duration (unwrap_or_none (try_parse_grpc_timeout headers)) server_timeout

/-- `http::response::Parts` restricted to what the code touches: status and
headers.  Response headers are modelled as an association list in insertion
order. -/
structure ResponseParts where
  status : Nat
  headers : List (String × String)
deriving DecidableEq, Repr

/-- `http::Response<B>`: a head plus a body. -/
structure Response (B : Type) where
  head : ResponseParts
  body : B
deriving DecidableEq, Repr

/-- `http::Response::map`: transform the body, keep the head. -/
def Response.map {B B' : Type} (f : B → B') (r : Response B) : Response B' :=
  { head := r.head, body := f r.body }

/-- `http::Response::new`: status 200, no headers. -/
def Response.new {B : Type} (body : B) : Response B :=
  { head := { status := 200, headers := [] }, body := body }

/-- `HeaderMap::insert` on response headers: replace every value under the
name, or append when the name is absent. -/
def insert_header (headers : List (String × String)) (name value : String) :
    List (String × String) :=
  if headers.any (fun p => p.1 == name) then
    headers.map (fun p => if p.1 == name then (name, value) else p)
  else headers ++ [(name, value)]

/-- `http_body::SizeHint`. -/
structure SizeHint where
  lower : Nat
  upper : Option Nat
deriving DecidableEq, Repr

/-- `SizeHint::with_exact`. -/
def SizeHint.with_exact (n : Nat) : SizeHint := { lower := n, upper := some n }

/-- `MaybeEmptyBody<B>` from `grpc_timeout.rs`: `full b` is `inner: Some(b)`,
`empty` is `inner: None`. -/
inductive MaybeEmptyBody (B : Type) : Type where
  | full (inner : B)
  | empty
deriving DecidableEq, Repr

namespace MaybeEmptyBody

/-- `MaybeEmptyBody::poll_frame`; `inner_poll_frame` is the inner body's
`poll_frame` at this poll (`Frame` outcomes stay abstract in `α`). -/
def poll_frame {B α : Type} (inner_poll_frame : B → Poll (Option α)) :
    MaybeEmptyBody B → Poll (Option α)
  | .full b => inner_poll_frame b
  | .empty => .ready none

/-- `MaybeEmptyBody::is_end_stream`. -/
def is_end_stream {B : Type} (inner_is_end_stream : B → Bool) :
    MaybeEmptyBody B → Bool
  | .full b => inner_is_end_stream b
  | .empty => true

/-- `MaybeEmptyBody::size_hint`. -/
def size_hint {B : Type} (inner_size_hint : B → SizeHint) :
    MaybeEmptyBody B → SizeHint
  | .full body => inner_size_hint body
  | .empty => SizeHint.with_exact 0

end MaybeEmptyBody

/-- The response synthesized in `ResponseFuture::poll` when the timer fires:
`Response::new(MaybeEmptyBody::empty())` followed by the three header
insertions. -/
def timeout_response (B : Type) : Response (MaybeEmptyBody B) :=
  let response := Response.new (MaybeEmptyBody.empty (B := B))
  { response with
    head := { response.head with
      headers :=
        insert_header
          (insert_header
            (insert_header response.head.headers CONTENT_TYPE_HEADER GRPC_CONTENT_TYPE)
            GRPC_STATUS_HEADER GRPC_DEADLINE_EXCEEDED_CODE)
          GRPC_MESSAGE_HEADER GRPC_DEADLINE_EXCEEDED_MESSAGE } }

/-- One poll of `grpc_timeout::ResponseFuture`.  `inner_poll` is the inner
future's outcome at this poll and `sleep_poll` the timer's (`none` when no
timer was created).  The inner future is polled first; only if it is pending
is the timer consulted. -/
def grpc_poll {B E : Type} (inner_poll : Poll (Except E (Response B)))
    (sleep_poll : Option (Poll Unit)) :
    Poll (Except E (Response (MaybeEmptyBody B))) :=
  match inner_poll with
  | .ready result =>
    .ready (result.map (fun response => response.map MaybeEmptyBody.full))
  | .pending =>
    match sleep_poll with
    | some (.ready _) => .ready (Except.ok (timeout_response B))
    | some .pending => .pending
    | none => .pending

namespace Callback

/-- `callback::future::Error<E>`. -/
inductive Error (E : Type) : Type where
  | inner (e : E)
  | polledAfterCompletion
deriving DecidableEq, Repr

/-- `callback::ResponseBody<B, H>` as constructed in `ResponseFuture::poll`:
the response body paired with the handler it now owns. -/
structure ResponseBody (B H : Type) where
  inner : B
  handler : H
deriving DecidableEq, Repr

/-- The state of `callback::ResponseFuture`: the single-slot handler field
(the inner future is modelled as the poll input). -/
structure FutureState (H : Type) where
  handler : Option H
deriving DecidableEq, Repr

/-- Hook invocations observed by the minted `ResponseHandler`. -/
inductive Event (E : Type) : Type where
  | on_response (head : ResponseParts)
  | on_error (e : E)
  | on_body_chunk
  | on_end_of_stream
deriving DecidableEq, Repr

/-- One poll of `callback::ResponseFuture`, returning the new state, the poll
outcome, and the hook invocations this poll performed.  Mirrors the source:
the handler is taken out of its slot first; if the slot is empty the poll
reports `PolledAfterCompletion`; otherwise the inner future is polled and on
`Pending` the taken handler goes out of scope (it is not put back). -/
def cb_poll {B E H : Type} (st : FutureState H)
    (inner_poll : Poll (Except E (Response B))) :
    FutureState H × Poll (Except (Error E) (Response (ResponseBody B H))) × List (Event E) :=
  match st.handler with
  | none => (⟨none⟩, .ready (Except.error Error.polledAfterCompletion), [])
  | some handler =>
    match inner_poll with
    | .pending => (⟨none⟩, .pending, [])
    | .ready (Except.ok response) =>
      (⟨none⟩,
       .ready (Except.ok
         { head := response.head,
           body := { inner := response.body, handler := handler } }),
       [Event.on_response response.head])
    | .ready (Except.error error) =>
      (⟨none⟩, .ready (Except.error (Error.inner error)), [Event.on_error error])

/-- An execution of `callback::ResponseFuture`: fold `cb_poll` over a list of
inner-future poll outcomes, collecting the poll results and the full event
trace. -/
def cb_run {B E H : Type} (st : FutureState H) :
    List (Poll (Except E (Response B))) →
    FutureState H × List (Poll (Except (Error E) (Response (ResponseBody B H)))) × List (Event E)
  | [] => (st, [], [])
  | p :: ps =>
    let step := cb_poll st p
    let rest := cb_run step.1 ps
    (rest.1, step.2.1 :: rest.2.1, step.2.2 ++ rest.2.2)

end Callback

/-! Helper lemmas. -/

theorem HeaderMap.get_singleton (name : String) (v : HeaderValue) :
    HeaderMap.get [(name, v)] name = some v := by
  simp [HeaderMap.get]

theorem is_visible_ascii_of_digit (b : Nat) (h : is_ascii_digit b = true) :
    is_visible_ascii b = true := by
  simp only [is_ascii_digit, Bool.and_eq_true, decide_eq_true_eq] at h
  simp only [is_visible_ascii, Bool.or_eq_true, Bool.and_eq_true, decide_eq_true_eq,
    beq_iff_eq]
  omega

theorem foldl_digits_lt (ds : List Nat) (h : ds.all is_ascii_digit = true) :
    ∀ acc : Nat,
      ds.foldl (fun acc b => acc * 10 + (b - 48)) acc < (acc + 1) * 10 ^ ds.length := by
  induction ds with
  | nil => intro acc; simp
  | cons b t ih =>
    intro acc
    simp only [List.all_cons, Bool.and_eq_true] at h
    have hb : b - 48 ≤ 9 := by
      have := h.1
      simp only [is_ascii_digit, Bool.and_eq_true, decide_eq_true_eq] at this
      omega
    have step := ih h.2 (acc * 10 + (b - 48))
    calc (b :: t).foldl (fun acc b => acc * 10 + (b - 48)) acc
        = t.foldl (fun acc b => acc * 10 + (b - 48)) (acc * 10 + (b - 48)) := rfl
      _ < (acc * 10 + (b - 48) + 1) * 10 ^ t.length := step
      _ ≤ ((acc + 1) * 10) * 10 ^ t.length := by
          apply Nat.mul_le_mul_right
          omega
      _ = (acc + 1) * 10 ^ (b :: t).length := by
          rw [List.length_cons, pow_succ]
          ring

theorem digitsVal_lt (ds : List Nat) (h : ds.all is_ascii_digit = true) :
    digitsVal ds < 10 ^ ds.length := by
  have := foldl_digits_lt ds h 0
  simpa [digitsVal] using this

theorem parse_u64_all_digits (ds : List Nat) (h1 : ds ≠ [])
    (h2 : ds.all is_ascii_digit = true) (h3 : ds.length ≤ 8) :
    parse_u64 ds = some (digitsVal ds) := by
  obtain ⟨b, t, rfl⟩ : ∃ b t, ds = b :: t := by
    cases ds with
    | nil => exact absurd rfl h1
    | cons b t => exact ⟨b, t, rfl⟩
  have hb : is_ascii_digit b = true := by
    simp only [List.all_cons, Bool.and_eq_true] at h2
    exact h2.1
  have hb48 : 48 ≤ b ∧ b ≤ 57 := by
    simpa [is_ascii_digit] using hb
  have hne : b ≠ 43 := by omega
  have hlt : digitsVal (b :: t) < 2 ^ 64 := by
    have h4 := digitsVal_lt (b :: t) h2
    have h5 : (10 : Nat) ^ (b :: t).length ≤ 10 ^ 8 :=
      Nat.pow_le_pow_right (by omega) h3
    have h6 : (10 : Nat) ^ 8 < 2 ^ 64 := by norm_num
    omega
  simp only [List.all_eq_true] at h2
  simp only [parse_u64, List.headD_cons]
  simp [hne, hlt, List.all_eq_true]
  exact ⟨⟨hb, fun x hx => h2 x (List.mem_cons_of_mem _ hx)⟩, by simpa using hlt⟩

theorem rust_u64_grammar_of_parse (s : List Nat) (n : Nat)
    (h : parse_u64 s = some n) : rust_u64_grammar s = true := by
  unfold parse_u64 at h
  unfold rust_u64_grammar
  by_cases hplus : (s.headD 0 == 43) = true
  · simp only [hplus, if_true] at h ⊢
    by_cases hemp : s.tail.isEmpty = true
    · simp [hemp] at h
    · simp only [hemp, Bool.false_eq_true, if_false] at h ⊢
      by_cases hall : s.tail.all is_ascii_digit = true
      · simp [hall, hemp]
      · simp [hall] at h
  · simp only [Bool.not_eq_true] at hplus
    simp only [hplus, Bool.false_eq_true, if_false] at h ⊢
    by_cases hemp : s.isEmpty = true
    · simp [hemp] at h
    · simp only [hemp, Bool.false_eq_true, if_false] at h ⊢
      by_cases hall : s.all is_ascii_digit = true
      · simp [hall, hemp]
      · simp [hall] at h

theorem cb_run_none_no_events {B E H : Type}
    (ps : List (Poll (Except E (Response B)))) :
    (Callback.cb_run (⟨none⟩ : Callback.FutureState H) ps).2.2 = [] := by
  induction ps with
  | nil => rfl
  | cons p t ih =>
    show ((Callback.cb_poll (⟨none⟩ : Callback.FutureState H) p).2.2 ++
      (Callback.cb_run (Callback.cb_poll (⟨none⟩ : Callback.FutureState H) p).1 t).2.2) = []
    simp [Callback.cb_poll, ih]

theorem cb_poll_state_none {B E H : Type} (st : Callback.FutureState H)
    (p : Poll (Except E (Response B))) :
    (Callback.cb_poll st p).1 = ⟨none⟩ := by
  cases st with
  | mk handler =>
    cases handler with
    | none => rfl
    | some h =>
      cases p with
      | pending => rfl
      | ready r =>
        cases r with
        | ok response => rfl
        | error e => rfl

theorem try_parse_valid_reduction (ds : List Nat) (u : Nat)
    (h1 : 1 ≤ ds.length) (h2 : ds.length ≤ 8)
    (h3 : ds.all is_ascii_digit = true) (hu : is_visible_ascii u = true) :
    try_parse_grpc_timeout [(GRPC_TIMEOUT_HEADER, ds ++ [u])] =
      (if ([u] : List Nat) == [72] then
        Except.ok (some (Duration.from_secs (u64_mul (digitsVal ds) SECONDS_IN_HOUR)))
      else if ([u] : List Nat) == [77] then
        Except.ok (some (Duration.from_secs (u64_mul (digitsVal ds) SECONDS_IN_MINUTE)))
      else if ([u] : List Nat) == [83] then
        Except.ok (some (Duration.from_secs (digitsVal ds)))
      else if ([u] : List Nat) == [109] then
        Except.ok (some (Duration.from_millis (digitsVal ds)))
      else if ([u] : List Nat) == [117] then
        Except.ok (some (Duration.from_micros (digitsVal ds)))
      else if ([u] : List Nat) == [110] then
        Except.ok (some (Duration.from_nanos (digitsVal ds)))
      else Except.error (ds ++ [u])) := by
  have hne : ds ≠ [] := by
    intro h
    rw [h] at h1
    simp at h1
  have hvds : (ds ++ [u]).all is_visible_ascii = true := by
    rw [List.all_append]
    rw [List.all_eq_true] at h3
    have hv : ds.all is_visible_ascii = true := by
      rw [List.all_eq_true]
      exact fun x hx => is_visible_ascii_of_digit x (h3 x hx)
    simp [hv, hu]
  have hlen : (ds ++ [u]).length - 1 = ds.length := by simp
  have htake : (ds ++ [u]).take ((ds ++ [u]).length - 1) = ds := by
    rw [hlen]
    exact List.take_left ds [u]
  have hdrop : (ds ++ [u]).drop ((ds ++ [u]).length - 1) = [u] := by
    rw [hlen]
    exact List.drop_left ds [u]
  have hparse : parse_u64 ds = some (digitsVal ds) :=
    parse_u64_all_digits ds hne h3 h2
  have h8 : ¬ ds.length > 8 := by omega
  unfold try_parse_grpc_timeout
  rw [HeaderMap.get_singleton]
  simp only [hvds, if_true, htake, hdrop, hparse, h8]
  simp [hne, h8]

theorem parse_u64_nil : parse_u64 [] = none := rfl

/-! Claim theorems. -/

/-- C3: the effective timeout armed by the `GrpcTimeout` service is absent
when both the client-declared and the server-configured timeouts are absent,
the one present value when exactly one is present, and the minimum of the two
when both are present; `call` arms the `sleep` timer with exactly this
reconciliation of the parsed header and the configured ceiling. -/
theorem C3_reconcile_effective_timeout (c s : Duration)
    (server : Option Duration) (headers : HeaderMap) :
    timeout_duration none none = none ∧
    timeout_duration (some c) none = some c ∧
    timeout_duration none (some s) = some s ∧
    timeout_duration (some c) (some s) = some (min c s) ∧
    GrpcTimeout.call_sleep server headers =
      timeout_duration (unwrap_or_none (try_parse_grpc_timeout headers)) server :=
  ⟨rfl, rfl, rfl, rfl, rfl⟩

/-- C6: when the timer fires while the inner future is still pending, the
racer resolves to `Ok` of the synthesized response: its body is empty
(reports end-of-stream, an exact size hint of 0, and yields no frame) and its
headers are exactly `content-type: application/grpc`, `grpc-status: 4` and
`grpc-message: Timeout%20expired`. -/
theorem C6_timer_fires_synthesized_response (B E : Type)
    (inner_ies : B → Bool) (inner_sh : B → SizeHint)
    (inner_pf : B → Poll (Option Nat)) :
    grpc_poll (B := B) (E := E) .pending (some (.ready ())) =
      .ready (Except.ok (timeout_response B)) ∧
    (timeout_response B).head.headers =
      [("content-type", "application/grpc"), ("grpc-status", "4"),
       ("grpc-message", "Timeout%20expired")] ∧
    (timeout_response B).body = MaybeEmptyBody.empty ∧
    MaybeEmptyBody.is_end_stream inner_ies (timeout_response B).body = true ∧
    MaybeEmptyBody.size_hint inner_sh (timeout_response B).body =
      SizeHint.with_exact 0 ∧
    MaybeEmptyBody.poll_frame inner_pf (timeout_response B).body = .ready none :=
  ⟨rfl, rfl, rfl, rfl, rfl, rfl⟩

/-- C7: whenever the inner future completes before the timer, the racer
returns the inner result unmodified: an `Ok` response keeps its head and its
body is re-wrapped with `MaybeEmptyBody::full`, which delegates frames,
end-of-stream and size hint to the original body; an inner `Err` passes
through unchanged.  When neither a client nor a server deadline is set, no
timer is created, and with no timer a pending inner poll is pure
passthrough. -/
theorem C7_inner_completion_passthrough (B E : Type)
    (result : Except E (Response B)) (response : Response B) (e : E)
    (sleep_poll : Option (Poll Unit)) (headers : HeaderMap)
    (inner_pf : B → Poll (Option Nat)) (inner_ies : B → Bool)
    (inner_sh : B → SizeHint)
    (habsent : HeaderMap.get headers GRPC_TIMEOUT_HEADER = none) :
    grpc_poll (.ready result) sleep_poll =
      .ready (result.map (fun r => r.map MaybeEmptyBody.full)) ∧
    grpc_poll (E := E) (.ready (Except.ok response)) sleep_poll =
      .ready (Except.ok { head := response.head,
                          body := MaybeEmptyBody.full response.body }) ∧
    grpc_poll (B := B) (.ready (Except.error e)) sleep_poll =
      .ready (Except.error e) ∧
    (∀ b : B,
      MaybeEmptyBody.poll_frame inner_pf (MaybeEmptyBody.full b) = inner_pf b ∧
      MaybeEmptyBody.is_end_stream inner_ies (MaybeEmptyBody.full b) =
        inner_ies b ∧
      MaybeEmptyBody.size_hint inner_sh (MaybeEmptyBody.full b) = inner_sh b) ∧
    GrpcTimeout.call_sleep none headers = none ∧
    grpc_poll (B := B) (E := E) .pending none = .pending := by
  refine ⟨rfl, rfl, rfl, fun b => ⟨rfl, rfl, rfl⟩, ?_, rfl⟩
  simp [GrpcTimeout.call_sleep, try_parse_grpc_timeout, habsent, unwrap_or_none,
    timeout_duration]

/-- Witness for C7 at a concrete request with no `grpc-timeout` header and no
server ceiling. -/
theorem C7_witness :
    HeaderMap.get [] GRPC_TIMEOUT_HEADER = none ∧
    GrpcTimeout.call_sleep none [] = none :=
  ⟨rfl,
   (C7_inner_completion_passthrough Nat Nat (Except.ok (Response.new 0))
     (Response.new 0) 0 none [] (fun _ => Poll.pending) (fun _ => true)
     (fun _ => SizeHint.with_exact 0) rfl).2.2.2.2.1⟩

/-- C10: on every poll the inner future is consulted before the timer, so at a
tie — both ready on the same poll — the real inner result (success or error)
is returned and the synthesized timeout response is not produced. -/
theorem C10_tie_prefers_inner (B E : Type) (result : Except E (Response B))
    (e : E) :
    grpc_poll (.ready result) (some (.ready ())) =
      .ready (result.map (fun r => r.map MaybeEmptyBody.full)) ∧
    grpc_poll (B := B) (.ready (Except.error e)) (some (.ready ())) =
      .ready (Except.error e) :=
  ⟨rfl, rfl⟩

/-- C8: once the callback future has returned a ready result, every further
poll yields the distinct `PolledAfterCompletion` error — not a success, not an
inner error — and invokes no handler hook. -/
theorem C8_double_poll_guard (B E H : Type) (st : Callback.FutureState H)
    (p q : Poll (Except E (Response B)))
    (_completed : ((Callback.cb_poll st p).2.1).isReady = true) :
    Callback.cb_poll (Callback.cb_poll st p).1 q =
      (⟨none⟩, .ready (Except.error Callback.Error.polledAfterCompletion), []) := by
  rw [cb_poll_state_none]
  rfl

/-- Witness for C8: a completed first poll followed by a second poll. -/
theorem C8_witness :
    ((Callback.cb_poll (B := Nat) (E := Nat) (H := Nat) ⟨some 0⟩
        (.ready (Except.ok (Response.new 0)))).2.1).isReady = true ∧
    Callback.cb_poll (B := Nat) (E := Nat)
        (Callback.cb_poll (B := Nat) (E := Nat) (H := Nat)
          ⟨some 0⟩ (.ready (Except.ok (Response.new 0)))).1 .pending =
      (⟨none⟩, .ready (Except.error Callback.Error.polledAfterCompletion), []) :=
  ⟨rfl,
   C8_double_poll_guard Nat Nat Nat ⟨some 0⟩
     (.ready (Except.ok (Response.new 0))) .pending rfl⟩

/-- C9: when the inner future completes with an error, the callback future
invokes `on_error` exactly once with that error value, propagates the original
error unchanged inside `Error::Inner`, and the handler receives no body event
afterwards — the whole remaining execution emits exactly that one
`on_error`. -/
theorem C9_inner_error_observed_once (B E H : Type) (h : H) (e : E)
    (ps : List (Poll (Except E (Response B)))) :
    Callback.cb_poll (B := B) (⟨some h⟩ : Callback.FutureState H)
        (.ready (Except.error e)) =
      (⟨none⟩, .ready (Except.error (Callback.Error.inner e)),
       [Callback.Event.on_error e]) ∧
    (Callback.cb_run (⟨some h⟩ : Callback.FutureState H)
        (.ready (Except.error e) :: ps)).2.2 = [Callback.Event.on_error e] := by
  refine ⟨rfl, ?_⟩
  simp [Callback.cb_run, Callback.cb_poll, cb_run_none_no_events]

/-- C4: for every header value of 1 to 8 ASCII digits followed by a unit byte
in {H, M, S, m, u, n}, `try_parse_grpc_timeout` returns `Some` of exactly the
duration equal to the digits' value scaled by the unit's factor (H = 3600 s,
M = 60 s, S = seconds, m = milliseconds, u = microseconds, n = nanoseconds),
and the 8-digit bound keeps both `u64` multiplications the code performs below
`2 ^ 64`, so overflow is unreachable for every unit. -/
theorem C4_valid_timeout_parses_exactly (ds : List Nat)
    (h1 : 1 ≤ ds.length) (h2 : ds.length ≤ 8)
    (h3 : ds.all is_ascii_digit = true) :
    try_parse_grpc_timeout [(GRPC_TIMEOUT_HEADER, ds ++ [72])] =
      Except.ok (some (Duration.from_secs (digitsVal ds * SECONDS_IN_HOUR))) ∧
    try_parse_grpc_timeout [(GRPC_TIMEOUT_HEADER, ds ++ [77])] =
      Except.ok (some (Duration.from_secs (digitsVal ds * SECONDS_IN_MINUTE))) ∧
    try_parse_grpc_timeout [(GRPC_TIMEOUT_HEADER, ds ++ [83])] =
      Except.ok (some (Duration.from_secs (digitsVal ds))) ∧
    try_parse_grpc_timeout [(GRPC_TIMEOUT_HEADER, ds ++ [109])] =
      Except.ok (some (Duration.from_millis (digitsVal ds))) ∧
    try_parse_grpc_timeout [(GRPC_TIMEOUT_HEADER, ds ++ [117])] =
      Except.ok (some (Duration.from_micros (digitsVal ds))) ∧
    try_parse_grpc_timeout [(GRPC_TIMEOUT_HEADER, ds ++ [110])] =
      Except.ok (some (Duration.from_nanos (digitsVal ds))) ∧
    digitsVal ds * SECONDS_IN_HOUR < 2 ^ 64 ∧
    digitsVal ds * SECONDS_IN_MINUTE < 2 ^ 64 := by
  have hval : digitsVal ds ≤ 99999999 := by
    have ha := digitsVal_lt ds h3
    have hb : (10 : Nat) ^ ds.length ≤ 10 ^ 8 :=
      Nat.pow_le_pow_right (by omega) h2
    have hc : (10 : Nat) ^ 8 = 100000000 := by norm_num
    omega
  have hH : digitsVal ds * SECONDS_IN_HOUR < 2 ^ 64 := by
    calc digitsVal ds * SECONDS_IN_HOUR ≤ 99999999 * SECONDS_IN_HOUR :=
          Nat.mul_le_mul_right _ hval
      _ < 2 ^ 64 := by norm_num [SECONDS_IN_HOUR]
  have hM : digitsVal ds * SECONDS_IN_MINUTE < 2 ^ 64 := by
    calc digitsVal ds * SECONDS_IN_MINUTE ≤ 99999999 * SECONDS_IN_MINUTE :=
          Nat.mul_le_mul_right _ hval
      _ < 2 ^ 64 := by norm_num [SECONDS_IN_MINUTE]
  refine ⟨?_, ?_, ?_, ?_, ?_, ?_, hH, hM⟩
  · rw [try_parse_valid_reduction ds 72 h1 h2 h3 (by decide)]
    have hH' : digitsVal ds * SECONDS_IN_HOUR < 18446744073709551616 := by
      simpa using hH
    simp [u64_mul, Nat.mod_eq_of_lt hH']
  · rw [try_parse_valid_reduction ds 77 h1 h2 h3 (by decide)]
    have hM' : digitsVal ds * SECONDS_IN_MINUTE < 18446744073709551616 := by
      simpa using hM
    simp [u64_mul, Nat.mod_eq_of_lt hM']
  · rw [try_parse_valid_reduction ds 83 h1 h2 h3 (by decide)]
    simp
  · rw [try_parse_valid_reduction ds 109 h1 h2 h3 (by decide)]
    simp
  · rw [try_parse_valid_reduction ds 117 h1 h2 h3 (by decide)]
    simp
  · rw [try_parse_valid_reduction ds 110 h1 h2 h3 (by decide)]
    simp

/-- Witness for C4 at the spec's example value `3H` (bytes [51, 72]),
whose parse is 10800 seconds. -/
theorem C4_witness :
    (1 ≤ ([51] : List Nat).length ∧ ([51] : List Nat).length ≤ 8 ∧
      ([51] : List Nat).all is_ascii_digit = true) ∧
    try_parse_grpc_timeout [(GRPC_TIMEOUT_HEADER, [51] ++ [72])] =
      Except.ok (some (Duration.from_secs (digitsVal [51] * SECONDS_IN_HOUR))) ∧
    Duration.from_secs (digitsVal [51] * SECONDS_IN_HOUR) =
      Duration.from_secs 10800 :=
  ⟨⟨by decide, by decide, by decide⟩,
   (C4_valid_timeout_parses_exactly [51] (by decide) (by decide) (by decide)).1,
   by decide⟩

/-- C5 fails on the code at the value `+1S` (bytes [43, 49, 83]): it does not
match the grammar `^[0-9]{1,8}[HMSmun]$` (a `+` is not a digit), yet
`try_parse_grpc_timeout` returns `Ok(Some(1 s))`, because Rust's `u64` parser
accepts an optional leading `+`. -/
theorem C5_counterexample_plus_sign :
    matches_timeout_grammar [43, 49, 83] = false ∧
    try_parse_grpc_timeout [(GRPC_TIMEOUT_HEADER, [43, 49, 83])] =
      Except.ok (some (Duration.from_secs 1)) := by
  refine ⟨by decide, ?_⟩
  rfl

/-- C5 amended: for every present `grpc-timeout` value outside the grammar
the parser actually accepts — an optional leading `+` followed by ASCII
digits, the numeric part at most 8 bytes, then one unit byte in
{H, M, S, m, u, n} — `try_parse_grpc_timeout` returns the malformed-value
error carrying the original value; an absent header returns the absent
result.  (The original claim's grammar `^[0-9]{1,8}[HMSmun]$` must be widened
by the optional `+`, which Rust's `u64` parser accepts.) -/
theorem C5_amended_malformed_rejected (v : HeaderValue)
    (hmal : accepted_timeout_grammar v = false) :
    try_parse_grpc_timeout [(GRPC_TIMEOUT_HEADER, v)] = Except.error v ∧
    try_parse_grpc_timeout [] = Except.ok none := by
  refine ⟨?_, rfl⟩
  unfold try_parse_grpc_timeout
  rw [HeaderMap.get_singleton]
  by_cases hvis : v.all is_visible_ascii = true
  · by_cases hemp : v.isEmpty = true
    · simp [hvis, hemp]
    · have hvne : v ≠ [] := by
        cases v with
        | nil => simp at hemp
        | cons a t => simp
      have hvlen : 1 ≤ v.length := by
        cases v with
        | nil => exact absurd rfl hvne
        | cons a t => simp
      have hdlen : (v.take (v.length - 1)).length = v.length - 1 := by
        rw [List.length_take]
        omega
      by_cases hlen8 : (v.take (v.length - 1)).length > 8
      · simp [hvis, hemp, hlen8]
        intro hcon
        exfalso
        omega
      · cases hp : parse_u64 (v.take (v.length - 1)) with
        | none => simp [hvis, hemp, hlen8, hp]
        | some tv =>
          have hdne : v.take (v.length - 1) ≠ [] := by
            intro hq
            rw [hq, parse_u64_nil] at hp
            exact Option.noConfusion hp
          have hdpos : 0 < (v.take (v.length - 1)).length :=
            List.length_pos.mpr hdne
          have hv2 : 2 ≤ v.length := by omega
          have hle8 : v.length - 1 ≤ 8 := by omega
          obtain ⟨b, hb⟩ : ∃ b, v.drop (v.length - 1) = [b] := by
            apply List.length_eq_one.mp
            rw [List.length_drop]
            omega
          by_cases hbu : is_timeout_unit b = true
          · exfalso
            have hr := rust_u64_grammar_of_parse _ _ hp
            have hacc : accepted_timeout_grammar v = true := by
              simp [accepted_timeout_grammar, hv2, hle8, hr, hb, hbu]
            rw [hacc] at hmal
            exact Bool.noConfusion hmal
          · have hbs : b ≠ 72 ∧ b ≠ 77 ∧ b ≠ 83 ∧ b ≠ 109 ∧ b ≠ 117 ∧ b ≠ 110 := by
              simp [is_timeout_unit] at hbu
              refine ⟨?_, ?_, ?_, ?_, ?_, ?_⟩ <;> omega
            have h72 : (v.drop (v.length - 1) == ([72] : List Nat)) = false := by
              rw [hb]
              simp [hbs.1]
            have h77 : (v.drop (v.length - 1) == ([77] : List Nat)) = false := by
              rw [hb]
              simp [hbs.2.1]
            have h83 : (v.drop (v.length - 1) == ([83] : List Nat)) = false := by
              rw [hb]
              simp [hbs.2.2.1]
            have h109 : (v.drop (v.length - 1) == ([109] : List Nat)) = false := by
              rw [hb]
              simp [hbs.2.2.2.1]
            have h117 : (v.drop (v.length - 1) == ([117] : List Nat)) = false := by
              rw [hb]
              simp [hbs.2.2.2.2.1]
            have h110 : (v.drop (v.length - 1) == ([110] : List Nat)) = false := by
              rw [hb]
              simp [hbs.2.2.2.2.2]
            simp [hvis, hemp, hlen8, hp, h72, h77, h83, h109, h117, h110]
  · simp [hvis]

/-- Witness for C5's amended claim at the malformed value `oneH`
(bytes [111, 110, 101, 72]). -/
theorem C5_witness :
    accepted_timeout_grammar [111, 110, 101, 72] = false ∧
    try_parse_grpc_timeout [(GRPC_TIMEOUT_HEADER, [111, 110, 101, 72])] =
      Except.error [111, 110, 101, 72] :=
  ⟨by decide,
   (C5_amended_malformed_rejected [111, 110, 101, 72] (by decide)).1⟩

/-- C1 fails on the code: in the execution where the inner future is pending
at the first poll and completes successfully at the second, the handler
receives zero head-level events — the pending poll takes it out of its slot
and drops it — and the second poll reports `PolledAfterCompletion` instead of
invoking `on_response` and handing the handler to the body. -/
theorem C1_zero_head_events_execution :
    Callback.cb_run (B := Nat) (E := Nat) (H := Nat) ⟨some 7⟩
        [.pending, .ready (Except.ok (Response.new 0))] =
      (⟨none⟩,
       [.pending, .ready (Except.error Callback.Error.polledAfterCompletion)],
       []) := rfl

/-- C2 fails on the code: a poll while the inner future is pending empties the
handler slot (the taken handler is dropped, no hook fires), so the next poll —
on which the inner future completes successfully — finds no handler and fails
with `PolledAfterCompletion` instead of invoking a terminal hook. -/
theorem C2_pending_poll_drops_handler :
    Callback.cb_poll (B := Nat) (E := Nat) (H := Nat) ⟨some 7⟩ .pending =
      (⟨none⟩, .pending, []) ∧
    (Callback.cb_poll (B := Nat) (E := Nat) (H := Nat) ⟨none⟩
        (.ready (Except.ok (Response.new 1)))).2 =
      (.ready (Except.error Callback.Error.polledAfterCompletion), []) :=
  ⟨rfl, rfl⟩

end SuiHttp
